import Mathlib

/-
Verification development for the salpy repository (satellite LiDAR point
adjustment).  The Python source is shallowly embedded: numeric values are
modelled over ℚ (and ℝ where square roots occur), NaN/NoData cells are
modelled as `none : Option ℚ`, Python exceptions as `Except String`, and
the process-global `random` generator as an explicit tape of realized
draws threaded through the optimizer.
-/

set_option autoImplicit false

namespace Salpy

/-! ## Distance metrics (get_loss.py, perform_distance.py) -/

/-- `scipy.spatial.distance.cityblock u v`: the L1 norm of `u - v`, used by
the "manhattan" branch of `get_loss` (line 158) and `perform_distance`
(line 116). -/
def cityblock (u v : List ℚ) : ℚ :=
  (List.zipWith (fun x y => |x - y|) u v).sum

/-- `np.sum(np.abs(u - v))`, the "area" branch of `get_loss` (line 165) and
`perform_distance` (line 123). -/
def areaBetween (u v : List ℚ) : ℚ :=
  (List.zipWith (fun x y => |x - y|) u v).sum

/-- `scipy.spatial.distance.euclidean u v`: the L2 norm of `u - v`. -/
noncomputable def euclideanDist (u v : List ℚ) : ℝ :=
  Real.sqrt (((List.zipWith (fun x y => (x - y) ^ 2) u v).sum : ℚ) : ℝ)

/-- `np.mean`, also the average used inside scipy's correlation distance. -/
def qmean (u : List ℚ) : ℚ := u.sum / (u.length : ℚ)

/-- Elementwise centering `u - np.average(u)` as done by
`scipy.spatial.distance.correlation`. -/
def centered (u : List ℚ) : List ℚ := u.map (fun x => x - qmean u)

/-- `np.average(u * v)` for equal-length arrays: the average of the
elementwise products. -/
def avgMul (u v : List ℚ) : ℚ :=
  (List.zipWith (fun x y => x * y) u v).sum / (u.length : ℚ)

/-- `scipy.spatial.distance.correlation u v` in exact arithmetic: the
correlation distance `|1 - E[cu·cv] / sqrt(E[cu·cu]·E[cv·cv])|` of the
centered sequences (scipy returns the absolute value of the difference).
Note this is `1 - pearson(u, v)`, NOT the Pearson coefficient itself. -/
noncomputable def scipyCorrelation (u v : List ℚ) : ℝ :=
  let cu := centered u
  let cv := centered v
  |1 - ((avgMul cu cv : ℚ) : ℝ) / Real.sqrt ((avgMul cu cu * avgMul cv cv : ℚ) : ℝ)|

/-- In floating point, scipy's correlation distance is NaN exactly when the
denominator `sqrt(uu·vv)` vanishes, i.e. when either centered sequence has
zero sum of squares (zero variance).  This decidable predicate models the
`np.isnan(corr)` test of get_loss.py line 162 / perform_distance.py
line 120. -/
def corrUndefined (u v : List ℚ) : Prop :=
  avgMul (centered u) (centered u) = 0 ∨ avgMul (centered v) (centered v) = 0

instance (u v : List ℚ) : Decidable (corrUndefined u v) := by
  unfold corrUndefined; infer_instance

/-- Minimum of a list, junk value 0 on the empty list (scipy never takes a
minimum over an empty point set in the Hausdorff code path). -/
def listMin : List ℚ → ℚ
  | [] => 0
  | x :: xs => xs.foldl min x

/-- Maximum of a list, junk value 0 on the empty list. -/
def listMax : List ℚ → ℚ
  | [] => 0
  | x :: xs => xs.foldl max x

/-- `scipy.spatial.distance.directed_hausdorff u v` specialized to the 1-D
point sets `u.reshape(-1, 1)` used by get_loss.py lines 166-170: the
maximum over points of `u` of the minimum distance to a point of `v`. -/
def directedHausdorff (u v : List ℚ) : ℚ :=
  listMax (u.map (fun x => listMin (v.map (fun y => |x - y|))))

/-- Custom symmetric Hausdorff distance of get_loss.py lines 18-37:
`max(directed_hausdorff(u, v), directed_hausdorff(v, u))`. -/
def hausdorff_distance (u v : List ℚ) : ℚ :=
  max (directedHausdorff u v) (directedHausdorff v u)

/-- Pointwise cost `|u_i - v_j|` for dynamic time warping (out-of-range
indices read junk 0; `dtwD` only consults indices below the lengths). -/
def dtwCell (u v : List ℚ) (i j : ℕ) : ℚ := |u.getD i 0 - v.getD j 0|

/-- Cumulative dynamic-time-warping cost matrix.  Models the external
`dtw.dtw(u, v).distance` call (dtw-python, default symmetric2 step
pattern): a monotonic warping path minimizing cumulative absolute
difference, the diagonal step weighted twice. -/
def dtwD (u v : List ℚ) : ℕ → ℕ → ℚ
  | 0, 0 => dtwCell u v 0 0
  | i + 1, 0 => dtwD u v i 0 + dtwCell u v (i + 1) 0
  | 0, j + 1 => dtwD u v 0 j + dtwCell u v 0 (j + 1)
  | i + 1, j + 1 =>
      min (dtwD u v i j + 2 * dtwCell u v (i + 1) (j + 1))
        (min (dtwD u v i (j + 1) + dtwCell u v (i + 1) (j + 1))
          (dtwD u v (i + 1) j + dtwCell u v (i + 1) (j + 1)))

/-- Dynamic-time-warping distance between two sequences (the "dtw" branch
of the metric dispatch). -/
def dtwDistance (u v : List ℚ) : ℚ :=
  dtwD u v (u.length - 1) (v.length - 1)

/-! ## NaN filtering and the loss stage of get_loss / perform_distance -/

/-- Models lines 139-142 of get_loss.py (identically lines 100-103 of
perform_distance.py): keep exactly the index-aligned pairs where neither
the measurement column nor the extracted raster value is NaN. -/
def validPairs (pv rv : List (Option ℚ)) : List (ℚ × ℚ) :=
  (pv.zip rv).filterMap (fun p =>
    match p with
    | (some x, some y) => some (x, y)
    | _ => none)

/-- Loss stage of `get_loss` (get_loss.py lines 128-177).  Inputs are the
measurement column (`none` models the Python argument `lidar_value=None`;
entries `none` model NaN cells) and the `extracted_value` column produced
by `extract_values` on the shifted points.  The Python `raise ValueError`
for an unknown method is modelled as `Except.error`. -/
noncomputable def get_loss_value (minimizing_method : String)
    (lidar_value : Option (List (Option ℚ)))
    (extracted_value : List (Option ℚ)) : Except String ℝ :=
  match lidar_value with
  | none => .ok 0
  | some lv =>
    let pairs := validPairs lv extracted_value
    let lidar_values := pairs.map Prod.fst
    let raster_values := pairs.map Prod.snd
    if pairs.length = 0 then .ok 1000
    else if minimizing_method = "dtw" then
      .ok ((dtwDistance lidar_values raster_values : ℚ) : ℝ)
    else if minimizing_method = "euclidean" then
      .ok (euclideanDist lidar_values raster_values)
    else if minimizing_method = "manhattan" then
      .ok ((cityblock lidar_values raster_values : ℚ) : ℝ)
    else if minimizing_method = "correlation" then
      .ok (if corrUndefined lidar_values raster_values then 1000
           else 1 - scipyCorrelation lidar_values raster_values)
    else if minimizing_method = "area" then
      .ok ((areaBetween lidar_values raster_values : ℚ) : ℝ)
    else if minimizing_method = "hausdorff" then
      .ok ((hausdorff_distance lidar_values raster_values : ℚ) : ℝ)
    else .error ("Unsupported minimizing method: " ++ minimizing_method)

/-- Loss stage of `perform_distance` (perform_distance.py lines 92-132),
same structure as `get_loss_value` with the error message of line 130.
The "hausdorff" branch calls `scipy.stats.hausdorff_distance`, a function
that does not exist in scipy (the import at line 12 fails; get_loss.py
line 17 documents this); it is modelled by the symmetric Hausdorff
distance the spec and get_loss.py prescribe. -/
noncomputable def perform_distance_value (method : String)
    (value_column : Option (List (Option ℚ)))
    (extracted_value : List (Option ℚ)) : Except String ℝ :=
  match value_column with
  | none => .ok 0
  | some pv =>
    let pairs := validPairs pv extracted_value
    let point_values := pairs.map Prod.fst
    let raster_values := pairs.map Prod.snd
    if pairs.length = 0 then .ok 1000
    else if method = "dtw" then
      .ok ((dtwDistance point_values raster_values : ℚ) : ℝ)
    else if method = "euclidean" then
      .ok (euclideanDist point_values raster_values)
    else if method = "manhattan" then
      .ok ((cityblock point_values raster_values : ℚ) : ℝ)
    else if method = "correlation" then
      .ok (if corrUndefined point_values raster_values then 1000
           else 1 - scipyCorrelation point_values raster_values)
    else if method = "area" then
      .ok ((areaBetween point_values raster_values : ℚ) : ℝ)
    else if method = "hausdorff" then
      .ok ((hausdorff_distance point_values raster_values : ℚ) : ℝ)
    else .error ("Unsupported distance method: " ++ method)

/-- The DistanceMetric component of spec section 4.2: the six-way dispatch
table that both get_loss.py (lines 152-172) and perform_distance.py
(lines 110-130) inline, applied to two already-filtered sequences.
Unknown method names are the error case. -/
noncomputable def distanceMetric (a b : List ℚ) (method : String) :
    Except Unit ℝ :=
  if method = "dtw" then .ok ((dtwDistance a b : ℚ) : ℝ)
  else if method = "euclidean" then .ok (euclideanDist a b)
  else if method = "manhattan" then .ok ((cityblock a b : ℚ) : ℝ)
  else if method = "correlation" then
    .ok (if corrUndefined a b then 1000 else 1 - scipyCorrelation a b)
  else if method = "area" then .ok ((areaBetween a b : ℚ) : ℝ)
  else if method = "hausdorff" then .ok ((hausdorff_distance a b : ℚ) : ℝ)
  else .error ()

/-! ## Raster value extraction (extract_values.py) -/

/-- `np.median`: middle element of the sorted list for odd length, average
of the two middle elements for even length. -/
def npMedian (l : List ℚ) : ℚ :=
  let s := l.mergeSort (fun a b => a ≤ b)
  if l.length % 2 = 1 then s.getD (l.length / 2) 0
  else (s.getD (l.length / 2 - 1) 0 + s.getD (l.length / 2) 0) / 2

/-- Statistic dispatch of extract_values.py lines 100-112, applied to the
valid cell values of one geometry.  The `raise ValueError` of line 112 is
the error case. -/
def statApply (stat : String) (valid_data : List ℚ) : Except String ℚ :=
  if stat = "mean" then .ok (valid_data.sum / (valid_data.length : ℚ))
  else if stat = "median" then .ok (npMedian valid_data)
  else if stat = "min" then .ok (listMin valid_data)
  else if stat = "max" then .ok (listMax valid_data)
  else if stat = "sum" then .ok valid_data.sum
  else .error ("Unsupported statistic: " ++ stat)

/-- Does a cell value equal the raster's nodata sentinel?  (The in-memory
dataset of extract_values.py is created without a nodata value, in which
case `dataset.nodata` is `None` and no cell is filtered.) -/
def isNodata : Option ℚ → ℚ → Bool
  | none, _ => false
  | some nd, c => c = nd

/-- One iteration of the per-point loop of extract_values.py lines 85-114.
`cells` are the raster values whose cells the point's (possibly buffered)
geometry intersects — the geometric `rasterio.mask` call is external.  The
whole body sits in a `try` whose `except Exception` (line 113) prints and
continues, so every raised error — including the `ValueError` for an
unsupported statistic — leaves the point's `extracted_value` at its
initialized NaN (`none`); an empty valid set likewise assigns nothing. -/
def extract_row_value (stat : String) (nodata : Option ℚ)
    (cells : List ℚ) : Option ℚ :=
  let valid_data := cells.filter (fun c => !(isNodata nodata c))
  if valid_data.length > 0 then
    match statApply stat valid_data with
    | .ok v => some v
    | .error _ => none
  else none

/-- The `extracted_value` column produced by `extract_values`
(extract_values.py lines 66-116): one entry per input point. -/
def extract_values (stat : String) (nodata : Option ℚ)
    (rows : List (List ℚ)) : List (Option ℚ) :=
  rows.map (extract_row_value stat nodata)

/-! ## Position adjustment (position_adjustment.py) -/

/-- One output row of `position_adjustment`: the shifted geometry plus the
retained original coordinates (columns orig_x, orig_y). -/
structure AdjustedRow where
  x : ℚ
  y : ℚ
  orig_x : ℚ
  orig_y : ℚ
  deriving DecidableEq, Repr

/-- `position_adjustment` (position_adjustment.py lines 56-81) on a point
collection: each point's new geometry is `original + (add_x, add_y)` and
its original coordinates are stored in the orig_x / orig_y columns.  The
caller-side CRS transform (line 57) is the identity here — the spec fixes
one consistent planar system.  The input list is untouched (the Python
code writes only into a copy). -/
def position_adjustment (rows : List (ℚ × ℚ)) (add_x add_y : ℚ) :
    List AdjustedRow :=
  rows.map (fun p => ⟨p.1 + add_x, p.2 + add_y, p.1, p.2⟩)

/-! ## The genetic optimizer (minimize_loss.py, DEAP operators)

The process-global `random` generator is modelled as a tape: a function
`ℕ → ℚ` giving the realized value of each successive elementary draw
(`random.random()` yields the raw tape value, assumed in [0, 1);
`random.uniform a b` is `a + (b - a) * random()` as in CPython;
`random.choice` turns the draw into an index; `random.gauss mu sigma`
returns `mu + sigma * g` where `g` is the tape value, i.e. the tape
records the realized standard-normal variate).  `random.seed(1118)`
(minimize_loss.py line 159) replaces the tape by the fixed stream the
seed determines, restarting at position 0. -/

/-- The global random generator's state: the tape of upcoming realized
draws and the position of the next one. -/
structure Tape where
  f : ℕ → ℚ
  i : ℕ

/-- Consume one elementary draw. -/
def Tape.draw (t : Tape) : ℚ × Tape := (t.f t.i, ⟨t.f, t.i + 1⟩)

/-- `random.uniform lo hi = lo + (hi - lo) * random()` (CPython). -/
def drawUniform (lo hi : ℚ) (t : Tape) : ℚ × Tape :=
  let (d, t1) := t.draw
  (lo + (hi - lo) * d, t1)

/-- `random.choice` on a sequence of length `n`: the draw selects an
index in `0, …, n-1`. -/
def drawChoice (n : ℕ) (t : Tape) : ℕ × Tape :=
  let (d, t1) := t.draw
  (min (Int.toNat ⌊d * (n : ℚ)⌋) (n - 1), t1)

/-- A DEAP Individual for this problem: the two offset genes and the
cached fitness, `none` while invalid (weights are (-1,), so the stored
loss is minimized). -/
structure Ind where
  x : ℚ
  y : ℚ
  fit : Option ℚ
  deriving DecidableEq, Repr

/-- Fitness comparison used by `max(..., key=attrgetter("fitness"))` and
`selBest` under weights (-1,): `a` beats `b` iff `a`'s loss is strictly
smaller (an invalid fitness never beats). -/
def fitBeats (a b : Ind) : Bool :=
  match a.fit, b.fit with
  | some fa, some fb => fa < fb
  | _, _ => false

/-- `toolbox.individual` (minimize_loss.py lines 135-138): one uniform
draw per coordinate from the bounding box, fitness invalid. -/
def initIndividual (lb ub : ℚ × ℚ) (t : Tape) : Ind × Tape :=
  let (x, t1) := drawUniform lb.1 ub.1 t
  let (y, t2) := drawUniform lb.2 ub.2 t1
  (⟨x, y, none⟩, t2)

/-- `toolbox.population(n)` (line 139, `tools.initRepeat`): `n`
individuals drawn in sequence. -/
def initPopulation (lb ub : ℚ × ℚ) : ℕ → Tape → List Ind × Tape
  | 0, t => ([], t)
  | n + 1, t =>
    let (ind, t1) := initIndividual lb ub t
    let (rest, t2) := initPopulation lb ub n t1
    (ind :: rest, t2)

/-- Fitness evaluation of the individuals whose fitness is invalid
(DEAP `eaSimple`): `lossOf` is the deterministic objective of
minimize_loss.py lines 106-126 — `get_loss` of the offset on the fixed
dataset, with NaN losses replaced by 1000. -/
def evalPop (lossOf : ℚ → ℚ → ℚ) (pop : List Ind) : List Ind :=
  pop.map (fun ind =>
    match ind.fit with
    | some _ => ind
    | none => { ind with fit := some (lossOf ind.x ind.y) })

/-- One tournament of `tools.selTournament` with tournsize 3: three
uniformly random aspirants (with replacement), the first lowest-loss one
wins (`max` keeps the earliest maximum). -/
def tournamentPick (pop : List Ind) (t : Tape) : Ind × Tape :=
  let n := pop.length
  let (i1, t1) := drawChoice n t
  let (i2, t2) := drawChoice n t1
  let (i3, t3) := drawChoice n t2
  let a1 := pop.getD i1 ⟨0, 0, none⟩
  let a2 := pop.getD i2 ⟨0, 0, none⟩
  let a3 := pop.getD i3 ⟨0, 0, none⟩
  let b1 := if fitBeats a2 a1 then a2 else a1
  let b2 := if fitBeats a3 b1 then a3 else b1
  (b2, t3)

/-- `tools.selTournament pop k` with tournsize 3 (registered at
minimize_loss.py line 147): `k` sequential tournaments. -/
def selTournament (pop : List Ind) : ℕ → Tape → List Ind × Tape
  | 0, t => ([], t)
  | k + 1, t =>
    let (c, t1) := tournamentPick pop t
    let (rest, t2) := selTournament pop k t1
    (c :: rest, t2)

/-- One gene of `tools.cxBlend` with alpha = 0.5 (line 145):
`gamma = (1 + 2 alpha) * random() - alpha`, children
`(1 - gamma) * x1 + gamma * x2` and `gamma * x1 + (1 - gamma) * x2`. -/
def blendGene (alpha x1 x2 : ℚ) (t : Tape) : ℚ × ℚ × Tape :=
  let (d, t1) := t.draw
  let gamma := (1 + 2 * alpha) * d - alpha
  ((1 - gamma) * x1 + gamma * x2, gamma * x1 + (1 - gamma) * x2, t1)

/-- `tools.cxBlend` on both genes; `varAnd` then deletes both children's
fitness values. -/
def cxBlendInd (alpha : ℚ) (a b : Ind) (t : Tape) : Ind × Ind × Tape :=
  let (ax, bx, t1) := blendGene alpha a.x b.x t
  let (ay, by2, t2) := blendGene alpha a.y b.y t1
  (⟨ax, ay, none⟩, ⟨bx, by2, none⟩, t2)

/-- Crossover half of DEAP `varAnd`: consecutive pairs (indices (0,1),
(2,3), …) are mated with probability `cxpb` each. -/
def crossoverPairs (cxpb alpha : ℚ) : List Ind → Tape → List Ind × Tape
  | a :: b :: rest, t =>
    let (d, t1) := t.draw
    if d < cxpb then
      let (a2, b2, t2) := cxBlendInd alpha a b t1
      let (rest2, t3) := crossoverPairs cxpb alpha rest t2
      (a2 :: b2 :: rest2, t3)
    else
      let (rest2, t2) := crossoverPairs cxpb alpha rest t1
      (a :: b :: rest2, t2)
  | l, t => (l, t)

/-- One gene of `tools.mutGaussian` (line 146): with probability `indpb`
add `random.gauss mu sigma`. -/
def mutGene (mu sigma indpb : ℚ) (x : ℚ) (t : Tape) : ℚ × Tape :=
  let (d, t1) := t.draw
  if d < indpb then
    let (g, t2) := t1.draw
    (x + (mu + sigma * g), t2)
  else (x, t1)

/-- `tools.mutGaussian` on both genes; `varAnd` deletes the mutant's
fitness. -/
def mutGaussianInd (mu sigma indpb : ℚ) (ind : Ind) (t : Tape) :
    Ind × Tape :=
  let (x2, t1) := mutGene mu sigma indpb ind.x t
  let (y2, t2) := mutGene mu sigma indpb ind.y t1
  (⟨x2, y2, none⟩, t2)

/-- Mutation half of DEAP `varAnd`: each individual is mutated with
probability `mutpb`. -/
def mutateAll (mutpb mu sigma indpb : ℚ) :
    List Ind → Tape → List Ind × Tape
  | [], t => ([], t)
  | a :: rest, t =>
    let (d, t1) := t.draw
    if d < mutpb then
      let (a2, t2) := mutGaussianInd mu sigma indpb a t1
      let (rest2, t3) := mutateAll mutpb mu sigma indpb rest t2
      (a2 :: rest2, t3)
    else
      let (rest2, t2) := mutateAll mutpb mu sigma indpb rest t1
      (a :: rest2, t2)

/-- The generational loop of DEAP `algorithms.eaSimple` (called at
minimize_loss.py lines 163-170 with cxpb = 0.7, mutpb = 0.2, alpha = 0.5,
mu = 0, sigma = 1, indpb = 0.2): select `len(pop)` parents by tournament,
apply `varAnd` (crossover then mutation), evaluate the invalidated
offspring, replace the population; repeated `ngen` times. -/
def eaSimpleLoop (lossOf : ℚ → ℚ → ℚ) :
    ℕ → List Ind → Tape → List Ind × Tape
  | 0, pop, t => (pop, t)
  | g + 1, pop, t =>
    let (sel, t1) := selTournament pop pop.length t
    let (off1, t2) := crossoverPairs (7 / 10) (1 / 2) sel t1
    let (off2, t3) := mutateAll (1 / 5) 0 1 (1 / 5) off1 t2
    eaSimpleLoop lossOf g (evalPop lossOf off2) t3

/-- `tools.selBest(pop, 1)[0]`: Python's stable descending fitness sort
keeps the leftmost lowest-loss individual first. -/
def selBest1 (pop : List Ind) : Ind :=
  match pop with
  | [] => ⟨0, 0, none⟩
  | a :: rest => rest.foldl (fun cur b => if fitBeats b cur then b else cur) a

/-- The optimization report of minimize_loss.py lines 184-188. -/
structure OptimResult where
  best_x : ℚ
  best_y : ℚ
  best_value : ℚ
  deriving DecidableEq, Repr

/-- `minimize_loss` (minimize_loss.py lines 94-190), parallel flag off.
`footprints` carries the input point coordinates (only its emptiness is
inspected here — the points themselves enter through `lossOf`, the
deterministic objective closing over the fixed dataset).  `ambient` is
the state of the global generator at entry; `seedTape` is the fixed draw
stream determined by `random.seed(1118)`.  The source creates the initial
population (line 156) BEFORE seeding (line 159), so the initial offsets
are drawn from the ambient tape; `eaSimple` then runs on the seeded tape.
An empty input returns `none` (the Python `return None` of line 97)
without touching the generator or the search. -/
def minimize_loss (footprints : List (ℚ × ℚ)) (lossOf : ℚ → ℚ → ℚ)
    (lb ub : ℚ × ℚ) (pop_size max_iter : ℕ) (seedTape : ℕ → ℚ)
    (ambient : Tape) : Option OptimResult :=
  if footprints.length = 0 then none
  else
    let (pop0, _) := initPopulation lb ub pop_size ambient
    let seeded : Tape := ⟨seedTape, 0⟩
    let pop1 := evalPop lossOf pop0
    let (finalPop, _) := eaSimpleLoop lossOf max_iter pop1 seeded
    let best := selBest1 finalPop
    some ⟨best.x, best.y, best.fit.getD 1000⟩

/-! ## Correction driver (positional_correction.py) -/

/-- Outcome of `positional_correction`: either the unmodified input
(optimizer failure, line 115) or the shifted point set (line 125-132).
The constructors keep the two outcomes distinguishable. -/
inductive CorrectionResult where
  | original (rows : List (ℚ × ℚ))
  | corrected (rows : List AdjustedRow)
  deriving DecidableEq, Repr

/-- `positional_correction` (positional_correction.py lines 95-132): run
`minimize_loss` once; on `None` return the input unchanged, otherwise
apply `position_adjustment` with the best offset. -/
def positional_correction (rows : List (ℚ × ℚ)) (lossOf : ℚ → ℚ → ℚ)
    (lb ub : ℚ × ℚ) (pop_size max_iter : ℕ) (seedTape : ℕ → ℚ)
    (ambient : Tape) : CorrectionResult :=
  match minimize_loss rows lossOf lb ub pop_size max_iter seedTape ambient with
  | none => .original rows
  | some r => .corrected (position_adjustment rows r.best_x r.best_y)

/-! ## Helper lemmas -/

/-- On NaN-free columns the NaN filter keeps every index-aligned pair. -/
theorem validPairs_map_some (a b : List ℚ) :
    validPairs (a.map some) (b.map some) = a.zip b := by
  induction a generalizing b with
  | nil => simp [validPairs]
  | cons x xs ih =>
    cases b with
    | nil => simp [validPairs]
    | cons y ys =>
      have h := ih ys
      simp only [validPairs, List.map_cons, List.zip_cons_cons,
        List.filterMap_cons] at h ⊢
      exact congrArg (fun l => (x, y) :: l) h

/-! ## C3: unsupported statistic names in extract_values -/

/-- C3: the claim says a raster-sampling call with a statistic name
outside {mean, median, min, max, sum} and at least one point over a valid
cell raises InvalidArgument.  The code does raise `ValueError` inside the
statistic dispatch, but the per-point `try`/`except Exception` of
extract_values.py line 113 catches it, prints, and leaves the point's
value NaN: the call returns a result.  This theorem evaluates the model
at the failing input — one point over one valid cell of value 5 with
statistic "foo": `extract_values` returns (`[none]`, i.e. NaN) even
though the inner dispatch errored. -/
theorem C3_unsupported_stat_error_swallowed :
    extract_values "foo" none [[5]] = [none]
    ∧ statApply "foo" [5] = .error "Unsupported statistic: foo" := by
  exact ⟨rfl, rfl⟩

/-! ## C6: empty input point set -/

/-- C6: on an empty input point set, `minimize_loss` does not run the
genetic search and reports `none` (the Python `return None`), an outcome
distinct from every numeric result; `positional_correction` then returns
the original empty point set unchanged (the `original` outcome, not a
zero-offset adjustment), for every objective, bounding box,
configuration, seed stream and ambient generator state. -/
theorem C6_empty_input_no_data (lossOf : ℚ → ℚ → ℚ) (lb ub : ℚ × ℚ)
    (pop_size max_iter : ℕ) (seedTape : ℕ → ℚ) (ambient : Tape) :
    minimize_loss [] lossOf lb ub pop_size max_iter seedTape ambient = none
    ∧ positional_correction [] lossOf lb ub pop_size max_iter seedTape ambient
      = .original [] := by
  constructor
  · rfl
  · rfl

/-! ## C8: symmetry of the Hausdorff distance -/

/-- C8: for non-empty sequences `u` and `v`, the custom
`hausdorff_distance` of get_loss.py lines 18-37 — the maximum of the two
directed Hausdorff distances on the sequences viewed as 1-D point sets —
is symmetric. -/
theorem C8_hausdorff_symmetric (u v : List ℚ) (hu : u ≠ []) (hv : v ≠ []) :
    hausdorff_distance u v = hausdorff_distance v u := by
  unfold hausdorff_distance
  exact max_comm _ _

/-- Witness for C8 at `u = [1, 2]`, `v = [5]`. -/
theorem C8_hausdorff_symmetric_witness :
    ([1, 2] : List ℚ) ≠ [] ∧ ([5] : List ℚ) ≠ []
    ∧ hausdorff_distance [1, 2] [5] = hausdorff_distance [5] [1, 2] := by
  exact ⟨by decide, by decide, C8_hausdorff_symmetric [1, 2] [5] (by decide) (by decide)⟩

/-! ## C9: applying an offset to a point collection -/

/-- C9: applying an offset `(dx, dy)` to a point collection produces a
collection of equal length whose i-th geometry is the i-th original
coordinate plus `(dx, dy)`, with the i-th original coordinates retained
in the orig_x / orig_y columns; the input list itself is a read-only
argument (the Python code writes into a copy only). -/
theorem C9_position_adjustment_shifts (rows : List (ℚ × ℚ)) (dx dy : ℚ)
    (i : ℕ) (h : i < rows.length) :
    (position_adjustment rows dx dy).length = rows.length
    ∧ ((position_adjustment rows dx dy).getD i ⟨0, 0, 0, 0⟩).x
        = (rows.getD i (0, 0)).1 + dx
    ∧ ((position_adjustment rows dx dy).getD i ⟨0, 0, 0, 0⟩).y
        = (rows.getD i (0, 0)).2 + dy
    ∧ ((position_adjustment rows dx dy).getD i ⟨0, 0, 0, 0⟩).orig_x
        = (rows.getD i (0, 0)).1
    ∧ ((position_adjustment rows dx dy).getD i ⟨0, 0, 0, 0⟩).orig_y
        = (rows.getD i (0, 0)).2 := by
  have hm : i < (position_adjustment rows dx dy).length := by
    simpa [position_adjustment] using h
  have hget : (position_adjustment rows dx dy).getD i ⟨0, 0, 0, 0⟩
      = ⟨(rows.getD i (0, 0)).1 + dx, (rows.getD i (0, 0)).2 + dy,
         (rows.getD i (0, 0)).1, (rows.getD i (0, 0)).2⟩ := by
    simp [position_adjustment, List.getD, List.getElem?_map,
      List.getElem?_eq_getElem h]
  refine ⟨by simp [position_adjustment], ?_, ?_, ?_, ?_⟩ <;> rw [hget]

/-- Witness for C9 at the one-point collection `[(1, 2)]` with offset
`(3, 4)`, index 0. -/
theorem C9_position_adjustment_shifts_witness :
    0 < ([((1 : ℚ), (2 : ℚ))] : List (ℚ × ℚ)).length
    ∧ ((position_adjustment [(1, 2)] 3 4).getD 0 ⟨0, 0, 0, 0⟩).x = 1 + 3 := by
  exact ⟨by decide, (C9_position_adjustment_shifts [(1, 2)] 3 4 0 (by decide)).2.1⟩

/-- With at least one valid pair, the loss stage of `get_loss` is exactly
the DistanceMetric dispatch applied to the filtered columns (unknown
names becoming the line-172 error message). -/
theorem get_loss_value_eq_metric (method : String) (pv ex : List (Option ℚ))
    (h : validPairs pv ex ≠ []) :
    get_loss_value method (some pv) ex
      = Except.mapError (fun _ => "Unsupported minimizing method: " ++ method)
          (distanceMetric ((validPairs pv ex).map Prod.fst)
            ((validPairs pv ex).map Prod.snd) method) := by
  have hne : ¬(validPairs pv ex).length = 0 := by
    simpa [List.length_eq_zero] using h
  simp only [get_loss_value, distanceMetric]
  rw [if_neg hne]
  split_ifs <;> rfl

/-- Same dispatch fact for `perform_distance` (line-130 error message). -/
theorem perform_distance_value_eq_metric (method : String)
    (pv ex : List (Option ℚ)) (h : validPairs pv ex ≠ []) :
    perform_distance_value method (some pv) ex
      = Except.mapError (fun _ => "Unsupported distance method: " ++ method)
          (distanceMetric ((validPairs pv ex).map Prod.fst)
            ((validPairs pv ex).map Prod.snd) method) := by
  have hne : ¬(validPairs pv ex).length = 0 := by
    simpa [List.length_eq_zero] using h
  simp only [perform_distance_value, distanceMetric]
  rw [if_neg hne]
  split_ifs <;> rfl

/-! ## C5: sentinel 1000 on zero valid pairs, metric otherwise -/

/-- C5: with a reference-measurement column supplied, the loss stage of
`get_loss` and of `perform_distance` first discards every index where
either side is NaN; if zero pairs remain it returns exactly the sentinel
1000 for EVERY method name (so the distance metric is never consulted),
and otherwise it returns whatever the DistanceMetric dispatch yields on
the remaining reference and sampled sequences. -/
theorem C5_sentinel_then_metric (method : String) (pv ex : List (Option ℚ)) :
    (validPairs pv ex = [] →
        get_loss_value method (some pv) ex = .ok 1000
        ∧ perform_distance_value method (some pv) ex = .ok 1000)
    ∧ (validPairs pv ex ≠ [] →
        ∀ v : ℝ, distanceMetric ((validPairs pv ex).map Prod.fst)
            ((validPairs pv ex).map Prod.snd) method = .ok v →
          get_loss_value method (some pv) ex = .ok v
          ∧ perform_distance_value method (some pv) ex = .ok v) := by
  constructor
  · intro h
    constructor <;> simp [get_loss_value, perform_distance_value, h]
  · intro h v hv
    rw [get_loss_value_eq_metric method pv ex h,
      perform_distance_value_eq_metric method pv ex h, hv]
    exact ⟨rfl, rfl⟩

/-- Witness for C5: a column `[some 1, none]` against extracted values
`[some 2, some 5]` keeps the single pair (1, 2) and yields the manhattan
distance; a column `[none]` leaves zero pairs and yields 1000 even for an
unknown method name. -/
theorem C5_sentinel_then_metric_witness :
    get_loss_value "manhattan" (some [some 1, none]) [some 2, some 5]
      = .ok ((cityblock [1] [2] : ℚ) : ℝ)
    ∧ get_loss_value "nonsense" (some [none]) [some 3] = .ok 1000 := by
  constructor
  · exact (((C5_sentinel_then_metric "manhattan" [some 1, none]
      [some 2, some 5]).2 (by decide)) _ rfl).1
  · exact ((C5_sentinel_then_metric "nonsense" [none] [some 3]).1 (by decide)).1

/-! ## C7: manhattan and area agree -/

/-- C7: on equal-length, non-empty, NaN-free columns the "manhattan" and
"area" methods are both accepted and produce the same loss — the sum of
absolute pointwise differences — in `get_loss` and in `perform_distance`
alike. -/
theorem C7_manhattan_eq_area (a b : List ℚ) (hlen : a.length = b.length)
    (hne : a ≠ []) :
    get_loss_value "manhattan" (some (a.map some)) (b.map some)
      = get_loss_value "area" (some (a.map some)) (b.map some)
    ∧ get_loss_value "manhattan" (some (a.map some)) (b.map some)
      = .ok ((cityblock a b : ℚ) : ℝ)
    ∧ cityblock a b = areaBetween a b
    ∧ perform_distance_value "manhattan" (some (a.map some)) (b.map some)
      = perform_distance_value "area" (some (a.map some)) (b.map some) := by
  have hfst : (a.zip b).map Prod.fst = a := List.map_fst_zip a b (le_of_eq hlen)
  have hsnd : (a.zip b).map Prod.snd = b :=
    List.map_snd_zip a b (le_of_eq hlen.symm)
  have hz : validPairs (a.map some) (b.map some) ≠ [] := by
    rw [validPairs_map_some]
    intro hcon
    apply hne
    have := congrArg List.length hcon
    rw [List.length_zip, ← hlen, min_self] at this
    exact List.length_eq_zero.mp this
  have hman := get_loss_value_eq_metric "manhattan" (a.map some) (b.map some) hz
  have harea := get_loss_value_eq_metric "area" (a.map some) (b.map some) hz
  have hman2 := perform_distance_value_eq_metric "manhattan" (a.map some)
    (b.map some) hz
  have harea2 := perform_distance_value_eq_metric "area" (a.map some)
    (b.map some) hz
  rw [validPairs_map_some, hfst, hsnd] at hman harea hman2 harea2
  have hmetric : distanceMetric a b "manhattan" = .ok ((cityblock a b : ℚ) : ℝ) := rfl
  have hametric : distanceMetric a b "area" = .ok ((areaBetween a b : ℚ) : ℝ) := rfl
  have hsame : cityblock a b = areaBetween a b := rfl
  refine ⟨?_, ?_, hsame, ?_⟩
  · rw [hman, harea, hmetric, hametric, hsame]; rfl
  · rw [hman, hmetric]; rfl
  · rw [hman2, harea2, hmetric, hametric, hsame]; rfl

/-- Witness for C7 at `a = [1, 4]`, `b = [2, 2]`. -/
theorem C7_manhattan_eq_area_witness :
    ([1, 4] : List ℚ).length = ([2, 2] : List ℚ).length
    ∧ get_loss_value "manhattan" (some ([1, 4].map some)) ([2, 2].map some)
      = get_loss_value "area" (some ([1, 4].map some)) ([2, 2].map some) := by
  exact ⟨by decide, (C7_manhattan_eq_area [1, 4] [2, 2] (by decide) (by decide)).1⟩

/-! ## C10: method names are validated only on the comparison path -/

/-- C10: the method name is validated only when a reference column is
supplied and at least one valid pair survives the NaN filter.  For every
unknown method name, `get_loss` still returns loss 0 when no column is
supplied and still returns the sentinel 1000 when zero valid pairs
remain, raising in neither case; only on the populated comparison path
does it raise the unsupported-method error — and `perform_distance`
behaves the same way. -/
theorem C10_unknown_method_paths (method : String) (pv ex : List (Option ℚ))
    (hm : method ∉ (["dtw", "euclidean", "manhattan", "correlation",
      "area", "hausdorff"] : List String)) :
    get_loss_value method none ex = .ok 0
    ∧ perform_distance_value method none ex = .ok 0
    ∧ (validPairs pv ex = [] →
        get_loss_value method (some pv) ex = .ok 1000
        ∧ perform_distance_value method (some pv) ex = .ok 1000)
    ∧ (validPairs pv ex ≠ [] →
        get_loss_value method (some pv) ex
          = .error ("Unsupported minimizing method: " ++ method)
        ∧ perform_distance_value method (some pv) ex
          = .error ("Unsupported distance method: " ++ method)) := by
  simp only [List.mem_cons, List.not_mem_nil, or_false, not_or] at hm
  obtain ⟨h1, h2, h3, h4, h5, h6⟩ := hm
  have hdm : ∀ x y : List ℚ, distanceMetric x y method = .error () := by
    intro x y
    simp [distanceMetric, h1, h2, h3, h4, h5, h6]
  refine ⟨rfl, rfl, ?_, ?_⟩
  · intro h
    constructor <;> simp [get_loss_value, perform_distance_value, h]
  · intro h
    rw [get_loss_value_eq_metric method pv ex h,
      perform_distance_value_eq_metric method pv ex h, hdm]
    exact ⟨rfl, rfl⟩

/-- Witness for C10 at the unknown method name "l3", an all-NaN column and
a populated column. -/
theorem C10_unknown_method_paths_witness :
    get_loss_value "l3" none [some 3] = .ok 0
    ∧ get_loss_value "l3" (some [none]) [some 3] = .ok 1000
    ∧ get_loss_value "l3" (some [some 1]) [some 3]
      = .error "Unsupported minimizing method: l3" := by
  refine ⟨(C10_unknown_method_paths "l3" [none] [some 3] (by decide)).1,
    ((C10_unknown_method_paths "l3" [none] [some 3] (by decide)).2.2.1 (by decide)).1,
    ?_⟩
  have h := ((C10_unknown_method_paths "l3" [some 1] [some 3]
    (by decide)).2.2.2 (by decide)).1
  simpa using h

/-- The exact value of the scipy correlation distance on the pair
`[1, 2, 3], [1, 2, 3]` (perfectly correlated): 0. -/
theorem scipyCorrelation_identical : scipyCorrelation [1, 2, 3] [1, 2, 3] = 0 := by
  have h1 : avgMul (centered [1, 2, 3]) (centered [1, 2, 3]) = 2 / 3 := by
    norm_num [avgMul, centered, qmean]
  simp only [scipyCorrelation]
  rw [h1]
  have h2 : (((2 : ℚ) / 3 * (2 / 3) : ℚ) : ℝ) = ((2 / 3 : ℝ)) ^ 2 := by
    push_cast; ring
  rw [h2, Real.sqrt_sq (by norm_num : (0 : ℝ) ≤ 2 / 3)]
  push_cast
  norm_num

/-- The exact value of the scipy correlation distance on the pair
`[1, 2, 3], [3, 2, 1]` (perfectly anticorrelated): 2. -/
theorem scipyCorrelation_reversed : scipyCorrelation [1, 2, 3] [3, 2, 1] = 2 := by
  have h1 : avgMul (centered [1, 2, 3]) (centered [3, 2, 1]) = -2 / 3 := by
    norm_num [avgMul, centered, qmean]
  have h2 : avgMul (centered [1, 2, 3]) (centered [1, 2, 3]) = 2 / 3 := by
    norm_num [avgMul, centered, qmean]
  have h3 : avgMul (centered [3, 2, 1]) (centered [3, 2, 1]) = 2 / 3 := by
    norm_num [avgMul, centered, qmean]
  simp only [scipyCorrelation]
  rw [h1, h2, h3]
  have h4 : (((2 : ℚ) / 3 * (2 / 3) : ℚ) : ℝ) = ((2 / 3 : ℝ)) ^ 2 := by
    push_cast; ring
  rw [h4, Real.sqrt_sq (by norm_num : (0 : ℝ) ≤ 2 / 3)]
  push_cast
  rw [show (1 : ℝ) - -2 / 3 / (2 / 3) = 2 by norm_num]
  norm_num

/-! ## C1: the "correlation" loss -/

/-- C1: the claim says the correlation loss is `1 - pearson(a, b)` and in
particular 0 when the sampled values equal the reference exactly.  But
`scipy.spatial.distance.correlation` is the correlation DISTANCE
(already `1 - pearson`), so the code's `1 - corr` is the Pearson
coefficient itself — contradicting the code's own comment "Higher
correlation means lower loss" (get_loss.py line 160).  At the spec's own
end-to-end input `[1, 2, 3]` vs `[1, 2, 3]` the loss is 1, not 0, in
both `get_loss` and `perform_distance`; and at the perfectly
anticorrelated input `[1, 2, 3]` vs `[3, 2, 1]` the loss is −1 — lower
than at perfect correlation, so the optimizer would prefer
anticorrelation.  (The undefined-correlation sentinel 1000 is the single
part of the claim the code honors.) -/
theorem C1_correlation_loss_is_pearson :
    get_loss_value "correlation" (some ([1, 2, 3].map some)) ([1, 2, 3].map some)
      = .ok 1
    ∧ perform_distance_value "correlation" (some ([1, 2, 3].map some))
        ([1, 2, 3].map some) = .ok 1
    ∧ get_loss_value "correlation" (some ([1, 2, 3].map some)) ([3, 2, 1].map some)
      = .ok (-1)
    ∧ get_loss_value "correlation" (some ([5, 5].map some)) ([1, 2].map some)
      = .ok 1000 := by
  have hz : validPairs ([1, 2, 3].map some) ([1, 2, 3].map some) ≠ [] := by decide
  have hz2 : validPairs ([1, 2, 3].map some) ([3, 2, 1].map some) ≠ [] := by decide
  have hz3 : validPairs ([5, 5].map some) ([1, 2].map some) ≠ [] := by decide
  have e1 := get_loss_value_eq_metric "correlation" ([1, 2, 3].map some)
    ([1, 2, 3].map some) hz
  have e2 := perform_distance_value_eq_metric "correlation" ([1, 2, 3].map some)
    ([1, 2, 3].map some) hz
  have e3 := get_loss_value_eq_metric "correlation" ([1, 2, 3].map some)
    ([3, 2, 1].map some) hz2
  have e4 := get_loss_value_eq_metric "correlation" ([5, 5].map some)
    ([1, 2].map some) hz3
  rw [show (validPairs ([1, 2, 3].map some) ([1, 2, 3].map some)).map Prod.fst
      = [1, 2, 3] from by rfl,
    show (validPairs ([1, 2, 3].map some) ([1, 2, 3].map some)).map Prod.snd
      = [1, 2, 3] from by rfl] at e1 e2
  rw [show (validPairs ([1, 2, 3].map some) ([3, 2, 1].map some)).map Prod.fst
      = [1, 2, 3] from by rfl,
    show (validPairs ([1, 2, 3].map some) ([3, 2, 1].map some)).map Prod.snd
      = [3, 2, 1] from by rfl] at e3
  rw [show (validPairs ([5, 5].map some) ([1, 2].map some)).map Prod.fst
      = [5, 5] from by rfl,
    show (validPairs ([5, 5].map some) ([1, 2].map some)).map Prod.snd
      = [1, 2] from by rfl] at e4
  have hd1 : distanceMetric [1, 2, 3] [1, 2, 3] "correlation"
      = .ok (if corrUndefined [1, 2, 3] [1, 2, 3] then 1000
             else 1 - scipyCorrelation [1, 2, 3] [1, 2, 3]) := rfl
  have hd2 : distanceMetric [1, 2, 3] [3, 2, 1] "correlation"
      = .ok (if corrUndefined [1, 2, 3] [3, 2, 1] then 1000
             else 1 - scipyCorrelation [1, 2, 3] [3, 2, 1]) := rfl
  have hd3 : distanceMetric [5, 5] [1, 2] "correlation"
      = .ok (if corrUndefined [5, 5] [1, 2] then 1000
             else 1 - scipyCorrelation [5, 5] [1, 2]) := rfl
  rw [hd1] at e1 e2
  rw [hd2] at e3
  rw [hd3] at e4
  rw [if_neg (by norm_num [corrUndefined, avgMul, centered, qmean] :
      ¬corrUndefined [1, 2, 3] [1, 2, 3]), scipyCorrelation_identical] at e1 e2
  rw [if_neg (by norm_num [corrUndefined, avgMul, centered, qmean] :
      ¬corrUndefined [1, 2, 3] [3, 2, 1]), scipyCorrelation_reversed] at e3
  rw [if_pos (by norm_num [corrUndefined, avgMul, centered, qmean] :
      corrUndefined [5, 5] [1, 2])] at e4
  refine ⟨?_, ?_, ?_, ?_⟩
  · rw [e1]; norm_num [Except.mapError]
  · rw [e2]; norm_num [Except.mapError]
  · rw [e3]; norm_num [Except.mapError]
  · rw [e4]; rfl

/-! ## C2: reproducibility under the fixed seed -/

/-- C2: the claim says two runs with identical inputs, configuration and
seed give bit-identical best offsets because the initial population is
drawn under the fixed seed.  But minimize_loss.py creates the initial
population (line 156) BEFORE `random.seed(1118)` (line 159), despite the
comment "Set random seed for reproducibility" right above the call: the
initial offsets come from whatever ambient generator state the process
happens to be in.  Here two runs that differ only in that ambient state
(delivering uniforms 0 versus 1/2) — same points, objective, bounds,
population size 1, zero generations, and the same seeded stream — return
best offset (0, 0) in one run and (1/2, 1/2) in the other. -/
theorem C2_initial_population_ignores_seed :
    minimize_loss [(0, 0)] (fun _ _ => 0) (0, 0) (1, 1) 1 0 (fun _ => 0)
        ⟨fun _ => 0, 0⟩ = some ⟨0, 0, 0⟩
    ∧ minimize_loss [(0, 0)] (fun _ _ => 0) (0, 0) (1, 1) 1 0 (fun _ => 0)
        ⟨fun _ => 1 / 2, 0⟩ = some ⟨1 / 2, 1 / 2, 0⟩
    ∧ (OptimResult.mk 0 0 0) ≠ ⟨1 / 2, 1 / 2, 0⟩ := by
  refine ⟨?_, ?_, ?_⟩
  · norm_num [minimize_loss, initPopulation, initIndividual, drawUniform,
      Tape.draw, evalPop, eaSimpleLoop, selBest1]
  · norm_num [minimize_loss, initPopulation, initIndividual, drawUniform,
      Tape.draw, evalPop, eaSimpleLoop, selBest1]
  · norm_num [OptimResult.mk.injEq]

/-! ## C4: offsets and the bounding box -/

/-- C4 counterexample: the claim says every offset evaluated during a
run — in particular the returned best offset — lies in the
caller-supplied box.  The code never clamps `cxBlend` or `mutGaussian`
output to the bounds (no decorators are registered), so a Gaussian
mutation can carry an individual out of the box and it can be returned
as the best offset.  Concretely: box [0, 1] × [0, 1], one individual,
one generation, a seeded stream that triggers mutation of the x gene
with realized noise 100 — `minimize_loss` returns best offset (100, 0),
and 100 is outside [0, 1]. -/
theorem C4_mutated_best_escapes_box :
    minimize_loss [(0, 0)] (fun _ _ => 0) (0, 0) (1, 1) 1 1
        (fun n => if n = 5 then 100 else if n ≤ 4 then 0 else 1)
        ⟨fun _ => 0, 0⟩ = some ⟨100, 0, 0⟩
    ∧ ¬((100 : ℚ) ≤ 1) := by
  refine ⟨?_, by norm_num⟩
  norm_num [minimize_loss, initPopulation, initIndividual, drawUniform,
    Tape.draw, evalPop, eaSimpleLoop, selTournament, tournamentPick,
    drawChoice, crossoverPairs, mutateAll, mutGaussianInd, mutGene,
    fitBeats, selBest1]

/-- C4 as amended: only the INITIAL population's offsets are guaranteed to
lie within the caller-supplied box [xmin, xmax] × [ymin, ymax] (each
coordinate is `lo + (hi - lo) * u` with `u` a uniform draw in [0, 1]);
offspring of blend crossover and Gaussian mutation are not clamped and
may leave the box, as may the returned best offset. -/
theorem C4_initial_population_within_box (lb ub : ℚ × ℚ) (n : ℕ) (t : Tape)
    (hf : ∀ k, 0 ≤ t.f k ∧ t.f k ≤ 1) (hx : lb.1 ≤ ub.1) (hy : lb.2 ≤ ub.2) :
    ∀ ind ∈ (initPopulation lb ub n t).1,
      lb.1 ≤ ind.x ∧ ind.x ≤ ub.1 ∧ lb.2 ≤ ind.y ∧ ind.y ≤ ub.2 := by
  induction n generalizing t with
  | zero => intro ind h; simp [initPopulation] at h
  | succ m ih =>
    intro ind hind
    simp only [initPopulation, initIndividual, drawUniform, Tape.draw] at hind
    rcases List.mem_cons.mp hind with h | h
    · subst h
      have h0 := hf t.i
      have h1 := hf (t.i + 1)
      dsimp only
      refine ⟨?_, ?_, ?_, ?_⟩ <;> nlinarith [h0.1, h0.2, h1.1, h1.2]
    · exact ih ⟨t.f, t.i + 2⟩ (fun k => hf k) ind h

/-- Witness for the amended C4: with box [0, 1] × [0, 1] and every draw
1/2, the single initial individual (1/2, 1/2) lies within the box. -/
theorem C4_initial_population_within_box_witness :
    (0 : ℚ) ≤ (Ind.mk (1 / 2) (1 / 2) none).x
    ∧ (Ind.mk (1 / 2) (1 / 2) none).x ≤ 1 := by
  have h := C4_initial_population_within_box (0, 0) (1, 1) 1 ⟨fun _ => 1 / 2, 0⟩
    (fun k => ⟨by norm_num, by norm_num⟩) (by norm_num) (by norm_num)
    ⟨1 / 2, 1 / 2, none⟩
    (by norm_num [initPopulation, initIndividual, drawUniform, Tape.draw])
  exact ⟨h.1, h.2.1⟩

end Salpy
